import Mathlib

/-!
Verification of the sqljoy core against its specification.

This file gives a shallow embedding of the parts of the sqljoy sources that the
checked claims are about, and proves or refutes each claim over that embedding:

* `mergeParams` / `sql.merge` from the client sql module (fragment merging);
* `validate` and the `ValidationErrors` accumulator from the validation engine;
* the compiler CLI exit-code path (`PRINTED_RULES` / `hadError` / `compile`);
* the session core's request-id allocator `nextId` and the close paths;
* the tenant runtime's subtask-id sequence, `cancelRequest`, `taskResult` /
  `taskFailed` with `Context.detach`, and the timer ceiling;
* the beforeunload guard (`updateUnloadHandler` and its call sites).

JavaScript objects used as string-keyed records are embedded as association
lists with unique keys; `for ... in` iteration order is list order, matching
JS insertion order for non-numeric keys.
-/

/-! ## JS object model -/

/-- Property lookup on a JS object (first matching key). -/
def getProp {α : Type} : List (String × α) → String → Option α
  | [], _ => none
  | (k2, v) :: rest, k => if k2 = k then some v else getProp rest k

/-- `obj.hasOwnProperty(k)` on the object embedding. -/
def hasOwn {α : Type} (o : List (String × α)) (k : String) : Bool :=
  (getProp o k).isSome

/-- `obj[k] = v`: update the existing key in place, or append a new key. -/
def setProp {α : Type} : List (String × α) → String → α → List (String × α)
  | [], k, v => [(k, v)]
  | (k2, v2) :: rest, k, v =>
      if k2 = k then (k2, v) :: rest else (k2, v2) :: setProp rest k v

/-! ## C1: sql.merge / mergeParams (src/unnamed/part_003)

`mergeParams(params, other)` iterates the own keys of `other`; on the first
key it snapshots `dest = { ...params }`; on a name conflict it computes the
base key with the regex `(.+?)\d+$` and runs
`do { key = baseKey + i++ } while (!params.hasOwnProperty(key))`;
finally it executes `params[key] = val` and returns `dest || params`.
The do-while is embedded with explicit fuel because its loop condition makes
it non-terminating whenever no suffixed key is already present. -/

/-- The base key computed by `key.match(/(.+?)\d+$/)`: strip the maximal
nonempty trailing digit run, keeping at least one leading character
(the lazy group must be nonempty). No trailing digits means no match,
so the key itself is used. -/
def baseKeyOf (key : String) : String :=
  let chars := key.data
  let trailing := (chars.reverse.takeWhile Char.isDigit).length
  if trailing = 0 then key
  else if trailing = chars.length then String.mk (chars.take 1)
  else String.mk (chars.take (chars.length - trailing))

/-- The `do { key = baseKey + i++ } while (!params.hasOwnProperty(key))` loop,
with fuel. It returns the first suffixed key that IS already a property of
`params` (that is the loop's exit condition as written), and `none` when the
fuel runs out, which models divergence. -/
def renameKey (params : List (String × Int)) (baseKey : String) : Nat → Nat → Option String
  | _, 0 => none
  | i, fuel + 1 =>
      let key := baseKey ++ toString i
      if hasOwn params key then some key else renameKey params baseKey (i + 1) fuel

/-- State threaded through the `for (let key in other)` loop of `mergeParams`:
the (mutated) `params` object, the `dest` snapshot, and the renames that were
warned about (base key, new key). -/
structure MergeState where
  params : List (String × Int)
  dest : Option (List (String × Int))
  renames : List (String × String)
deriving Repr, DecidableEq

/-- The body of `mergeParams`: one iteration per own key of `other`, writing
`params[key] = val` into the mutated `params` object (as the source does). -/
def mergeParamsLoop (fuel : Nat) : MergeState → List (String × Int) → Option MergeState
  | st, [] => some st
  | st, (key, val) :: rest =>
      let st1 := if st.dest.isNone then { st with dest := some st.params } else st
      if hasOwn st1.params key then
        match renameKey st1.params (baseKeyOf key) 2 fuel with
        | none => none
        | some key2 =>
            mergeParamsLoop fuel
              { st1 with params := setProp st1.params key2 val
                         renames := st1.renames ++ [(baseKeyOf key, key2)] } rest
      else
        mergeParamsLoop fuel { st1 with params := setProp st1.params key val } rest

/-- `mergeParams(params, other)`. Returns
(returned value `dest || params`, final contents of the `params` object that
was passed in, renames warned about), or `none` when the rename loop diverges. -/
def mergeParams (params other : List (String × Int)) (fuel : Nat) :
    Option (List (String × Int) × List (String × Int) × List (String × String)) :=
  match mergeParamsLoop fuel ⟨params, none, []⟩ other with
  | none => none
  | some st => some (st.dest.getD st.params, st.params, st.renames)

/-! ## C2: validate (src/sqljoy/src/validation.ts) -/

/-- JS runtime values as far as the validation engine inspects them. -/
inductive JSValue where
  | undef
  | nullv
  | strv (s : String)
  | numv (n : Int)
deriving DecidableEq, Repr

/-- JS strict equality on the embedded values. -/
def jsStrictEq : JSValue → JSValue → Bool
  | JSValue.undef, JSValue.undef => true
  | JSValue.nullv, JSValue.nullv => true
  | JSValue.strv a, JSValue.strv b => a == b
  | JSValue.numv a, JSValue.numv b => a == b
  | _, _ => false

/-- The `ValidationErrors` accumulator. -/
structure VErrors where
  errors : List (String × String)
  nonFieldErrors : List String
deriving DecidableEq, Repr

/-- `ValidationErrors.add`: a falsy (empty) name goes to `nonFieldErrors`;
otherwise first-wins per field (`if (!this.errors[name])`, so an existing
empty-string entry is also overwritten, being falsy). -/
def VErrors.add (e : VErrors) (name err : String) : VErrors :=
  if name = "" then { e with nonFieldErrors := e.nonFieldErrors ++ [err] }
  else
    match getProp e.errors name with
    | some s => if s = "" then { e with errors := setProp e.errors name err } else e
    | none => { e with errors := setProp e.errors name err }

/-- `ValidationErrors.hasErrors`. -/
def VErrors.hasErrors (e : VErrors) : Bool :=
  !e.nonFieldErrors.isEmpty || !e.errors.isEmpty

/-- The `addError` helper of validation.ts: allocate the accumulator on demand. -/
def addError (errors : Option VErrors) (key err : String) : VErrors :=
  (errors.getD ⟨[], []⟩).add key err

/-- The `for (let param in params)` loop of `validate`. Note that the loop
variable `param` is the KEY, a string, and the source compares `param` itself
(not `params[param]`) with `undefined` and with the `"__PARAM_"` sentinel. -/
def validateParamsLoop : Option VErrors → List (String × JSValue) → Option VErrors
  | errors, [] => errors
  | errors, (param, _) :: rest =>
      let errors1 :=
        if jsStrictEq (JSValue.strv param) JSValue.undef then
          some (addError errors param "param is undefined, use null if you mean null")
        else if jsStrictEq (JSValue.strv param) (JSValue.strv "__PARAM_") then
          some (addError errors param "missing value for late-bound param")
        else errors
      validateParamsLoop errors1 rest

/-- `validate(query, params, validators)`: allocate the accumulator iff there
are validators, run the param loop, run each validator on the shared
accumulator, and return `null` unless errors were accumulated. Validators are
embedded as functions from the accumulator and the params to the updated
accumulator (asynchronous validators are awaited before the final check, so
their effects are included the same way). -/
def validate (params : List (String × JSValue))
    (validators : List (VErrors → List (String × JSValue) → VErrors)) : Option VErrors :=
  let errors0 : Option VErrors := if validators.length = 0 then none else some ⟨[], []⟩
  let errors1 := validateParamsLoop errors0 params
  let errors2 := validators.foldl (fun e v => e.map (fun e2 => v e2 params)) errors1
  match errors2 with
  | some e => if e.hasErrors then some e else none
  | none => none

/-! ## C3: compiler build exit code (src/unnamed/part_008, part_009)

The visitor module declares `let PRINTED_RULES = true;`. `printRules` returns
immediately when the flag is set (and sets it after printing otherwise);
`printError` always calls `printRules` first; `hadError()` returns the flag;
`compile` returns `!hadError()` and the CLI exits 1 when `compile` is falsy. -/

/-- Initial value of `PRINTED_RULES` exactly as declared in the source. -/
def printedRulesInit : Bool := true

/-- `printRules()`: returns the new flag value. -/
def printRules (printedRules : Bool) : Bool :=
  if printedRules then printedRules else true

/-- `printError(...)` as far as the flag is concerned: it calls `printRules`. -/
def printError (printedRules : Bool) : Bool :=
  printRules printedRules

/-- `hadError()`. -/
def hadError (printedRules : Bool) : Bool := printedRules

/-- The flag after `n` resolution failures have each called `printError`. -/
def afterFailures : Nat → Bool
  | 0 => printedRulesInit
  | n + 1 => printError (afterFailures n)

/-- `compile`'s return value for a run with `n` resolution failures
(no exception path): `!hadError()`. -/
def compileRun (n : Nat) : Bool := !hadError (afterFailures n)

/-- The CLI handler: `if (!compile(args)) process.exit(1)`, else exit 0. -/
def buildExitCode (n : Nat) : Nat := if compileRun n then 0 else 1

/-! ## C4: request id allocation (src/sqljoy/src/client.ts nextId) -/

/-- The session fields `nextId` reads and writes. -/
structure SessionState where
  connectedAt : Int
  lastId : Int
deriving Repr, DecidableEq

/-- `nextId()`: `timestamp = now - connectedAt`; if `timestamp <= lastId`
return `++lastId`, otherwise set `lastId = timestamp` and return it. -/
def nextId (now : Int) (st : SessionState) : Int × SessionState :=
  let timestamp := now - st.connectedAt
  if timestamp ≤ st.lastId then (st.lastId + 1, { st with lastId := st.lastId + 1 })
  else (timestamp, { st with lastId := timestamp })

/-- The ids emitted by consecutive sends, one per clock reading. -/
def sendIds (st : SessionState) : List Int → List Int
  | [] => []
  | now :: rest => (nextId now st).1 :: sendIds (nextId now st).2 rest

/-! ## C5: subtask id sequence (src/unnamed/part_017 setSubtask)

`setSubtask` computes `subtaskId = (SUBTASK_ID_SEQUENCE + 1) & 0x7fffffff`
and stores it back; the sequence is seeded with a random value below 2^31. -/

/-- One allocation step of `SUBTASK_ID_SEQUENCE`: the returned id, which is
also the new value of the sequence. -/
def nextSubtaskId (seq : Nat) : Nat := (seq + 1) % 2 ^ 31

/-- The ids handed out by `n` consecutive `setSubtask` calls starting from
sequence value `seq`. -/
def subtaskIds (seq : Nat) : Nat → List Nat
  | 0 => []
  | n + 1 => nextSubtaskId seq :: subtaskIds (nextSubtaskId seq) n

/-! ## C6: cancelRequest (src/unnamed/part_017) -/

/-- A subtask registry entry as `cancelRequest` inspects it: whether `reject`
is non-null (promise-backed) and the value `ctx.id()` currently returns
(`none` embeds a null `ctx`, as stored by callback subtasks). -/
structure Executor where
  hasReject : Bool
  ctxId : Option Nat
deriving Repr, DecidableEq

/-- Message of the `SubtaskError` used for request cancellation. -/
def cancelMsg : String := "request cancelled"

/-- The guard of `cancelRequest`'s loop:
`reject != null && ctx != null && ctx.id() == requestId`. -/
def cancelMatches (requestId : Nat) (e : Executor) : Bool :=
  e.hasReject && decide (e.ctxId = some requestId)

/-- `cancelRequest(requestId)`: scan the registry, reject and delete every
matching entry. Returns (remaining registry, rejections in scan order). -/
def cancelRequest (requestId : Nat) :
    List (Nat × Executor) → List (Nat × Executor) × List (Nat × String)
  | [] => ([], [])
  | (i, e) :: rest =>
      let r := cancelRequest requestId rest
      if cancelMatches requestId e then (r.1, (i, cancelMsg) :: r.2)
      else ((i, e) :: r.1, r.2)

/-! ## C7: taskResult / taskFailed and Context.detach
(src/sqljoy-runtime/src/index.ts, actions and context) -/

/-- A tenant `Context`: the closure-held request id, and whether the `id`
accessor is still the original closure (`attached`) or has been replaced by
the `detached` function returning zero. -/
structure Ctx where
  attached : Bool
  reqId : Nat
deriving Repr, DecidableEq

/-- `context.id()`. -/
def Ctx.idVal (c : Ctx) : Nat := if c.attached then c.reqId else 0

/-- `context.detach()`: read the current id, replace the accessor with the
zero-returning one, and hand the original id back. -/
def Ctx.detach (c : Ctx) : Nat × Ctx := (c.idVal, { c with attached := false })

/-- The two terminal outbound message kinds of a task. -/
inductive OutMsgType where
  | callResult
  | callError
deriving Repr, DecidableEq

/-- `taskResult(ctx, result)`: emits `CallResult` with `ctx.id()` and does not
touch the context. -/
def taskResult (c : Ctx) (outbox : List (OutMsgType × Nat)) : Ctx × List (OutMsgType × Nat) :=
  (c, outbox ++ [(OutMsgType.callResult, c.idVal)])

/-- `taskFailed(ctx, error)`: emits `CallError` with `ctx.detach()`. -/
def taskFailed (c : Ctx) (outbox : List (OutMsgType × Nat)) : Ctx × List (OutMsgType × Nat) :=
  ((c.detach).2, outbox ++ [(OutMsgType.callError, (c.detach).1)])

/-! ## C8: close() and onClose (src/sqljoy/src/client.ts) -/

/-- The name of the error `QueryInProgress.cancel` rejects with. -/
def connClosedError : String := "ConnectionError"

/-- The client fields the close paths touch: the terminal flag, whether a
transport handle is held, and the pending request table (ids). -/
structure ClientState where
  closed : Bool
  hasSock : Bool
  queries : List Nat
deriving Repr, DecidableEq

/-- `close()`: idempotent; marks the client closed and closes/forgets the
transport. It does not itself touch the request table. -/
def closeClient (st : ClientState) : ClientState :=
  if st.closed then st else { st with closed := true, hasSock := false }

/-- `onClose(e)`: the handler the transport invokes when the socket closes
(after an explicit `close()` or on transport loss). Rejects every pending
request with the connection-closed error, empties the table, forgets the
socket. It does not set `closed`. -/
def onCloseEvent (st : ClientState) : ClientState × List (Nat × String) :=
  ({ st with queries := [], hasSock := false },
   st.queries.map (fun i => (i, connClosedError)))

/-! ## C9: beforeunload guard (src/unnamed/part_002 and client.ts onMsg)

Single client, `preventUnload = WAIT_FOR_ACK`, open socket with drained
buffer, so `hasPending()` is exactly non-emptiness of the request table. -/

/-- The guard's state: the client's pending table, the module-level
`unloadRegistered` flag, and how many times `addEventListener` has run. -/
structure UnloadState where
  queries : List Nat
  unloadRegistered : Bool
  addListenerCalls : Nat
deriving Repr, DecidableEq

/-- `setUnload()`: registers the handler unless already registered. -/
def setUnload (st : UnloadState) : UnloadState :=
  if st.unloadRegistered then st
  else { st with unloadRegistered := true, addListenerCalls := st.addListenerCalls + 1 }

/-- `clearUnload()`: removes the handler if registered. -/
def clearUnload (st : UnloadState) : UnloadState :=
  if st.unloadRegistered then { st with unloadRegistered := false } else st

/-- `updateUnloadHandler()`: level check of `hasPending` over all clients. -/
def updateUnloadHandler (st : UnloadState) : UnloadState :=
  if st.queries.isEmpty then clearUnload st else setUnload st

/-- A send: `sendCommand` stores the request in the table, then `doSend`
transmits and calls `updateUnloadHandler`. -/
def sendEvent (i : Nat) (st : UnloadState) : UnloadState :=
  updateUnloadHandler { st with queries := st.queries ++ [i] }

/-- Receipt of the response frame for request `i`: `onMsg` calls
`updateUnloadHandler` FIRST (while the request is still in the table) and
only afterwards deletes the table entry. -/
def recvAckEvent (i : Nat) (st : UnloadState) : UnloadState :=
  let st1 := updateUnloadHandler st
  { st1 with queries := st1.queries.erase i }

/-! ## C10: timer ceiling (src/unnamed/part_018) -/

/-- The timer module's state: the `ACTIVE_TIMERS` counter, the `MAX_TIMERS`
ceiling (default 10), the subtask id sequence, and the `TIMERS` set. -/
structure TimerState where
  activeTimers : Nat
  maxTimers : Nat
  subtaskSeq : Nat
  timers : List Nat
deriving Repr, DecidableEq

/-- The error message thrown at the ceiling. -/
def tooManyTimers : String := "too many timers"

/-- The replaced global `setTimeout`: throws at the ceiling, otherwise bumps
`ACTIVE_TIMERS`, allocates a callback subtask id and records it in `TIMERS`. -/
def setTimeoutRT (st : TimerState) : Except String (Nat × TimerState) :=
  if st.activeTimers ≥ st.maxTimers then Except.error tooManyTimers
  else
    let i := nextSubtaskId st.subtaskSeq
    Except.ok (i, { st with activeTimers := st.activeTimers + 1, subtaskSeq := i,
                            timers := st.timers ++ [i] })

/-- The replaced global `setInterval`: same guard and counter handling;
only the emitted `CreateTimer` payload (negated milliseconds) differs. -/
def setIntervalRT (st : TimerState) : Except String (Nat × TimerState) :=
  if st.activeTimers ≥ st.maxTimers then Except.error tooManyTimers
  else
    let i := nextSubtaskId st.subtaskSeq
    Except.ok (i, { st with activeTimers := st.activeTimers + 1, subtaskSeq := i,
                            timers := st.timers ++ [i] })

/-- The replaced globals `clearTimeout` / `clearInterval`: drop the timer and
its subtask when present. `ACTIVE_TIMERS` is not decremented anywhere. -/
def clearTimeoutRT (i : Nat) (st : TimerState) : TimerState :=
  if st.timers.contains i then { st with timers := st.timers.erase i } else st

/-! ## Theorems -/

/-- C1: refuted as stated — `mergeParams` writes the fragment's parameters into
the parent's `params` object (mutating the original) while returning the stale
`dest` snapshot, so the returned merged record is missing every fragment
parameter; and on a collision its do-while searches for a suffixed name that is
already PRESENT, so it overwrites an existing parameter when one exists
(third conjunct) and diverges when none does (second conjunct, any fuel up to
50 shown). This contradicts the source's own comments ("so we don't modify the
original", "Add a number to the end until it's unique"). -/
theorem c1_mergeParams_code_bug :
    mergeParams [("x", 1)] [("y", 2)] 50 = some ([("x", 1)], [("x", 1), ("y", 2)], [])
    ∧ mergeParams [("x", 1)] [("x", 2)] 50 = none
    ∧ mergeParams [("x", 1), ("x2", 5)] [("x", 9)] 50
        = some ([("x", 1), ("x2", 5)], [("x", 1), ("x2", 9)], [("x", "x2")]) :=
  ⟨by decide, by decide, by decide⟩

/-- C2: refuted as stated — `validate` compares the iteration variable of
`for (let param in params)`, which is the KEY string, against `undefined`, so a
parameter whose VALUE is undefined produces no error and `validate` returns
null (with and without validators), contrary to the claim and to the source's
own comment ("If any parameter in params is undefined, treat that as an
error"). -/
theorem c2_validate_code_bug :
    validate [("a", JSValue.undef)] [] = none
    ∧ validate [("a", JSValue.undef)] [fun e _ => e] = none :=
  ⟨rfl, rfl⟩

/-- C3: refuted as stated — `PRINTED_RULES` is initialized to `true`, so
`hadError()` returns true on every run, `compile` returns false, and the build
command exits 1 even when every resolution succeeded (zero failures), for any
number of failures. -/
theorem c3_build_always_exits_one :
    buildExitCode 0 = 1 ∧ ∀ n, buildExitCode n = 1 := by
  have h : ∀ n, afterFailures n = true := by
    intro n
    induction n with
    | zero => rfl
    | succ n ih => simp [afterFailures, printError, printRules, ih]
  exact ⟨rfl, fun n => by simp [buildExitCode, compileRun, hadError, h n]⟩

/-- C4: confirmed — `nextId` returns `max(lastId + 1, now - connectedAt)` and
stores it back into `lastId`; the id sequence over any run of clock readings is
strictly increasing; and with `connectedAt = t0` and clock readings
`t0, t0, t0+7, t0+1, t0+20` the five emitted ids are `1, 2, 7, 8, 20`. -/
theorem c4_nextId_monotonic_ids :
    (∀ now st, (nextId now st).1 = max (st.lastId + 1) (now - st.connectedAt)
      ∧ (nextId now st).2.lastId = (nextId now st).1
      ∧ (nextId now st).2.connectedAt = st.connectedAt)
    ∧ (∀ st clocks, List.Chain' (· < ·) (sendIds st clocks))
    ∧ (∀ t0 : Int, sendIds ⟨t0, 0⟩ [t0, t0, t0 + 7, t0 + 1, t0 + 20] = [1, 2, 7, 8, 20]) := by
  have hmax : ∀ now st, (nextId now st).1 = max (st.lastId + 1) (now - st.connectedAt)
      ∧ (nextId now st).2.lastId = (nextId now st).1
      ∧ (nextId now st).2.connectedAt = st.connectedAt := by
    intro now st
    simp only [nextId]
    split <;> simp <;> omega
  have hgt : ∀ now st, st.lastId < (nextId now st).1 := by
    intro now st
    simp only [nextId]
    split <;> simp
    omega
  have hchain : ∀ clocks st, List.Chain' (· < ·) (sendIds st clocks)
      ∧ ∀ x ∈ sendIds st clocks, st.lastId < x := by
    intro clocks
    induction clocks with
    | nil => intro st; simp [sendIds]
    | cons now rest ih =>
      intro st
      obtain ⟨ihc, ihm⟩ := ih (nextId now st).2
      have h2 := (hmax now st).2.1
      constructor
      · simp only [sendIds]
        refine List.chain'_cons'.mpr ⟨?_, ihc⟩
        intro y hy
        have hym := ihm y (List.mem_of_mem_head? hy)
        omega
      · intro x hx
        simp only [sendIds, List.mem_cons] at hx
        rcases hx with h1 | h1
        · rw [h1]; exact hgt now st
        · have hxm := ihm x h1
          have hg := hgt now st
          omega
  refine ⟨hmax, fun st clocks => (hchain clocks st).1, ?_⟩
  intro t0
  norm_num [sendIds, nextId]

/-- C5 counterexample: the subtask id sequence is masked to 31 bits, so with a
seed near the top of the range (reachable, since the seed is
`Math.random() * 0x7fffffff`) the counter wraps: from sequence value
`2^31 - 2`, two consecutive allocations yield `2^31 - 1` and then `0`, which is
not strictly increasing. -/
theorem c5_subtask_wrap_counterexample :
    subtaskIds (2 ^ 31 - 2) 2 = [2 ^ 31 - 1, 0]
    ∧ ¬ List.Chain' (· < ·) (subtaskIds (2 ^ 31 - 2) 2) := by
  have h : subtaskIds (2 ^ 31 - 2) 2 = [2 ^ 31 - 1, 0] := by decide
  refine ⟨h, ?_⟩
  rw [h]
  simp [List.chain'_cons]

/-- C5 amended: every allocated subtask id is a non-negative integer below
`2^31`, and as long as no wraparound occurs (seed plus number of allocations
stays below `2^31`) the ids are strictly increasing, pairwise distinct, and all
strictly above the starting sequence value, so an id removed from the registry
is never handed out again within that span. -/
theorem c5_subtask_ids_amended (seq n : Nat) (h : seq + n < 2 ^ 31) :
    List.Chain' (· < ·) (subtaskIds seq n)
    ∧ List.Pairwise (· ≠ ·) (subtaskIds seq n)
    ∧ ∀ x ∈ subtaskIds seq n, seq < x ∧ x < 2 ^ 31 := by
  have key : ∀ n seq, seq + n < 2 ^ 31 →
      List.Chain' (· < ·) (subtaskIds seq n)
      ∧ ∀ x ∈ subtaskIds seq n, seq < x ∧ x < 2 ^ 31 := by
    intro n
    induction n with
    | zero => intro seq _; simp [subtaskIds]
    | succ n ih =>
      intro seq h
      have hid : nextSubtaskId seq = seq + 1 := Nat.mod_eq_of_lt (by omega)
      obtain ⟨ihc, ihm⟩ := ih (seq + 1) (by omega)
      simp only [subtaskIds, hid]
      constructor
      · refine List.chain'_cons'.mpr ⟨?_, ihc⟩
        intro y hy
        exact (ihm y (List.mem_of_mem_head? hy)).1
      · intro x hx
        rcases List.mem_cons.mp hx with h1 | h1
        · omega
        · have := ihm x h1
          omega
  obtain ⟨hc, hm⟩ := key n seq h
  have hp : List.Pairwise (· < ·) (subtaskIds seq n) := List.chain'_iff_pairwise.mp hc
  exact ⟨hc, hp.imp (fun hlt => Nat.ne_of_lt hlt), hm⟩

/-- C5 witness: the amended theorem applied at sequence value 5 with 3
allocations. -/
theorem c5_subtask_ids_amended_witness :
    List.Chain' (· < ·) (subtaskIds 5 3)
    ∧ List.Pairwise (· ≠ ·) (subtaskIds 5 3)
    ∧ ∀ x ∈ subtaskIds 5 3, 5 < x ∧ x < 2 ^ 31 :=
  c5_subtask_ids_amended 5 3 (by norm_num)

/-- C6: confirmed — `cancelRequest R` removes from the registry exactly the
promise-backed entries (non-null reject) whose context currently reports id
`R`, rejecting each with the cancellation error in scan order, and leaves every
other entry (callback subtasks and other requests' subtasks) in place and
unchanged. -/
theorem c6_cancelRequest_exact (requestId : Nat) (reg : List (Nat × Executor)) :
    (cancelRequest requestId reg).1 = reg.filter (fun p => !cancelMatches requestId p.2)
    ∧ (cancelRequest requestId reg).2
        = (reg.filter (fun p => cancelMatches requestId p.2)).map (fun p => (p.1, cancelMsg))
    ∧ ∀ p, p ∈ (cancelRequest requestId reg).1
        ↔ p ∈ reg ∧ ¬(p.2.hasReject = true ∧ p.2.ctxId = some requestId) := by
  have h12 : (cancelRequest requestId reg).1
        = reg.filter (fun p => !cancelMatches requestId p.2)
      ∧ (cancelRequest requestId reg).2
        = (reg.filter (fun p => cancelMatches requestId p.2)).map (fun p => (p.1, cancelMsg)) := by
    induction reg with
    | nil => simp [cancelRequest]
    | cons pe rest ih =>
      obtain ⟨i, e⟩ := pe
      obtain ⟨ih1, ih2⟩ := ih
      by_cases hm : cancelMatches requestId e
      · simp [cancelRequest, hm, ih1, ih2]
      · simp [cancelRequest, hm, ih1, ih2]
  have hbeq : ∀ e : Executor, ((!cancelMatches requestId e) = true)
      ↔ ¬(e.hasReject = true ∧ e.ctxId = some requestId) := by
    intro e
    cases hr : e.hasReject <;> simp [cancelMatches, hr]
  refine ⟨h12.1, h12.2, ?_⟩
  intro p
  rw [h12.1, List.mem_filter]
  exact and_congr_right (fun _ => hbeq p.2)

/-- C7 counterexample: emitting `CallResult` does not detach the context —
after `taskResult` on the context for request 5, `id()` still returns 5,
not zero. Only `taskFailed` calls `detach`. -/
theorem c7_taskResult_no_detach_counterexample :
    (taskResult ⟨true, 5⟩ []).2 = [(OutMsgType.callResult, 5)]
    ∧ Ctx.idVal (taskResult ⟨true, 5⟩ []).1 ≠ 0 :=
  ⟨rfl, by decide⟩

/-- C7 amended: the context is detached only on terminal rejection —
`taskFailed` captures the original id exactly once for the `CallError` message
and leaves the context with an `id()` accessor returning zero, while
`taskResult` emits `CallResult` with the current id and leaves the context
attached and unchanged. -/
theorem c7_detach_on_error_only (c : Ctx) (outbox : List (OutMsgType × Nat)) :
    (taskFailed c outbox).2 = outbox ++ [(OutMsgType.callError, c.idVal)]
    ∧ Ctx.idVal (taskFailed c outbox).1 = 0
    ∧ (taskResult c outbox).1 = c
    ∧ (taskResult c outbox).2 = outbox ++ [(OutMsgType.callResult, c.idVal)] := by
  refine ⟨rfl, ?_, rfl, rfl⟩
  simp [taskFailed, Ctx.detach, Ctx.idVal]

/-- C8 counterexample: when the transport is lost without an explicit
`close()`, `onClose` rejects the pending requests and empties the table but
does NOT mark the client terminally closed — `closed` stays false (the client
goes back to NotConnected and may reconnect). -/
theorem c8_transport_loss_counterexample :
    (onCloseEvent ⟨false, true, [7]⟩).1.closed = false
    ∧ (onCloseEvent ⟨false, true, [7]⟩).2 = [(7, connClosedError)]
    ∧ (onCloseEvent ⟨false, true, [7]⟩).1.queries = [] :=
  ⟨rfl, rfl, rfl⟩

/-- C8 amended: after `close()` and the transport's resulting close event,
every pending request is rejected with the connection-closed error, the table
is empty, and the client is terminally closed; on bare transport loss the same
rejections happen and the table empties, but the terminal flag is unchanged. -/
theorem c8_close_rejects_pending (st : ClientState) :
    ((onCloseEvent (closeClient st)).1.closed = true
      ∧ (onCloseEvent (closeClient st)).1.queries = []
      ∧ (onCloseEvent (closeClient st)).2 = st.queries.map (fun i => (i, connClosedError)))
    ∧ ((onCloseEvent st).1.queries = []
      ∧ (onCloseEvent st).2 = st.queries.map (fun i => (i, connClosedError))
      ∧ (onCloseEvent st).1.closed = st.closed) := by
  unfold closeClient onCloseEvent
  by_cases h : st.closed <;> simp [h]

/-- C9 counterexample: with `preventUnload = WAIT_FOR_ACK`, after one send and
its acknowledging response frame the beforeunload handler is still registered,
because `onMsg` re-evaluates the guard BEFORE deleting the request table entry;
the claim says the ack removes it. -/
theorem c9_ack_leaves_handler_counterexample :
    (recvAckEvent 1 (sendEvent 1 ⟨[], false, 0⟩)).unloadRegistered = true := by
  decide

/-- C9 amended: no handler before any send; after one unacked send it is
registered exactly once; the acknowledging frame leaves it registered (the
table is already empty, so removal is pending); the next observed frame removes
it; a second send re-registers it (second `addEventListener` call). -/
theorem c9_unload_guard_amended :
    (⟨[], false, 0⟩ : UnloadState).unloadRegistered = false
    ∧ (sendEvent 1 ⟨[], false, 0⟩).unloadRegistered = true
    ∧ (sendEvent 1 ⟨[], false, 0⟩).addListenerCalls = 1
    ∧ (recvAckEvent 1 (sendEvent 1 ⟨[], false, 0⟩)).unloadRegistered = true
    ∧ (recvAckEvent 1 (sendEvent 1 ⟨[], false, 0⟩)).queries = []
    ∧ (updateUnloadHandler (recvAckEvent 1 (sendEvent 1 ⟨[], false, 0⟩))).unloadRegistered
        = false
    ∧ (sendEvent 2 (updateUnloadHandler
        (recvAckEvent 1 (sendEvent 1 ⟨[], false, 0⟩)))).unloadRegistered = true
    ∧ (sendEvent 2 (updateUnloadHandler
        (recvAckEvent 1 (sendEvent 1 ⟨[], false, 0⟩)))).addListenerCalls = 2 := by
  decide

/-- C10: confirmed — once `ACTIVE_TIMERS` has reached the ceiling, both timer
constructors throw the too-many-timers error; cancelling timers never lowers
the counter; and below the ceiling a creation succeeds and increments it by
one. -/
theorem c10_timer_ceiling (st : TimerState) (h : st.maxTimers ≤ st.activeTimers) :
    setTimeoutRT st = Except.error tooManyTimers
    ∧ setIntervalRT st = Except.error tooManyTimers
    ∧ (∀ i s, (clearTimeoutRT i s).activeTimers = s.activeTimers)
    ∧ (∀ s, s.activeTimers < s.maxTimers →
        ∃ i s2, setTimeoutRT s = Except.ok (i, s2)
          ∧ s2.activeTimers = s.activeTimers + 1) := by
  refine ⟨?_, ?_, ?_, ?_⟩
  · unfold setTimeoutRT
    rw [if_pos h]
  · unfold setIntervalRT
    rw [if_pos h]
  · intro i s
    unfold clearTimeoutRT
    split <;> rfl
  · intro s hs
    refine ⟨nextSubtaskId s.subtaskSeq,
      { s with activeTimers := s.activeTimers + 1, subtaskSeq := nextSubtaskId s.subtaskSeq,
               timers := s.timers ++ [nextSubtaskId s.subtaskSeq] }, ?_, rfl⟩
    unfold setTimeoutRT
    rw [if_neg (by omega)]

/-- C10 witness: the theorem applied to the default ceiling of 10 with ten
timers already created over the runtime's lifetime. -/
theorem c10_timer_ceiling_witness :
    setTimeoutRT ⟨10, 10, 0, []⟩ = Except.error tooManyTimers
    ∧ setIntervalRT ⟨10, 10, 0, []⟩ = Except.error tooManyTimers
    ∧ (∀ i s, (clearTimeoutRT i s).activeTimers = s.activeTimers)
    ∧ (∀ s, s.activeTimers < s.maxTimers →
        ∃ i s2, setTimeoutRT s = Except.ok (i, s2)
          ∧ s2.activeTimers = s.activeTimers + 1) :=
  c10_timer_ceiling ⟨10, 10, 0, []⟩ (by decide)
